import Mathlib

/-!
Shallow embedding of `src/gpu/graphite/dawn/DawnCaps.cpp` (Skia's Dawn/WebGPU
capability layer) and proofs about its format table, capability queries,
default-texture-descriptor factories and resource-key builders.

The embedding is for the non-Emscripten build configuration (the repository
ships a Windows `SkUserConfig.h`), so the `#if !defined(__EMSCRIPTEN__)`
branches of the source are the ones translated.
-/

namespace wgpu

/-- Texture formats of the WebGPU (Dawn) API that this capability layer deals
with: the eighteen entries of `kFormats`, the three multiplanar formats the
source mentions, and two further formats of the API that the table does not
list (so that lookups of unlisted formats are exercised). -/
inductive TextureFormat where
  | Undefined
  | R8Unorm
  | R16Float
  | RG8Unorm
  | RG16Float
  | RGBA8Unorm
  | RGBA8UnormSrgb
  | BGRA8Unorm
  | RGB10A2Unorm
  | RGBA16Float
  | Stencil8
  | Depth16Unorm
  | Depth24Plus
  | Depth24PlusStencil8
  | Depth32Float
  | BC1RGBAUnorm
  | ETC2RGB8Unorm
  | R16Unorm
  | RG16Unorm
  | External
  | R8BG8Biplanar420Unorm
  | R10X6BG10X6Biplanar420Unorm
  | R8BG8A8Triplanar420Unorm
  deriving DecidableEq, Fintype

/-- Numeric value of a `wgpu::TextureFormat` enumerator, as used by the
`static_cast<uint32_t>` conversions of the source.  The numerals follow the
Dawn `webgpu.h` header (a third-party header outside this repository): the
core WebGPU formats have small values and the Dawn-specific extension formats
live in the `0x00050000` extension range.  The proofs rely only on the
enumerator values being pairwise distinct, and on the core formats fitting in
16 bits. -/
def TextureFormat.val : TextureFormat → Nat
  | .Undefined => 0x00000000
  | .R8Unorm => 0x00000001
  | .R16Float => 0x00000007
  | .RG8Unorm => 0x00000008
  | .RG16Float => 0x00000011
  | .RGBA8Unorm => 0x00000012
  | .RGBA8UnormSrgb => 0x00000013
  | .BGRA8Unorm => 0x00000017
  | .RGB10A2Unorm => 0x00000019
  | .RGBA16Float => 0x00000021
  | .Stencil8 => 0x00000025
  | .Depth16Unorm => 0x00000026
  | .Depth24Plus => 0x00000027
  | .Depth24PlusStencil8 => 0x00000028
  | .Depth32Float => 0x00000029
  | .BC1RGBAUnorm => 0x0000002B
  | .ETC2RGB8Unorm => 0x00000037
  | .R16Unorm => 0x00050000
  | .RG16Unorm => 0x00050001
  | .External => 0x00050007
  | .R8BG8Biplanar420Unorm => 0x00050008
  | .R10X6BG10X6Biplanar420Unorm => 0x00050009
  | .R8BG8A8Triplanar420Unorm => 0x0005000A

/-- Texture-usage bit flags of `wgpu::TextureUsage` (values from the WebGPU
header). -/
def TextureUsage.CopySrc : Nat := 0x1
def TextureUsage.CopyDst : Nat := 0x2
def TextureUsage.TextureBinding : Nat := 0x4
def TextureUsage.StorageBinding : Nat := 0x8
def TextureUsage.RenderAttachment : Nat := 0x10
def TextureUsage.TransientAttachment : Nat := 0x20

/-- Texture aspects of `wgpu::TextureAspect` used by the source. -/
inductive TextureAspect where
  | All
  | Plane0Only
  | Plane1Only
  | Plane2Only
  deriving DecidableEq

/-- Load operations of `wgpu::LoadOp`; only `ExpandResolveTexture` matters to
the source (the value of `fSupportedResolveTextureLoadOp`). -/
inductive LoadOp where
  | ExpandResolveTexture
  deriving DecidableEq

end wgpu

namespace skgpu.graphite

/-- Mip-map request (`skgpu::Mipmapped`). -/
inductive Mipmapped where
  | kNo
  | kYes
  deriving DecidableEq

/-- Renderability request (`skgpu::Renderable`). -/
inductive Renderable where
  | kNo
  | kYes
  deriving DecidableEq

/-- Protected-content request (`skgpu::Protected`). -/
inductive Protectedness where
  | kNo
  | kYes
  deriving DecidableEq

/-- Discardable request (`skgpu::graphite::Discardable`). -/
inductive Discardable where
  | kNo
  | kYes
  deriving DecidableEq

/-- Graphite load op (`skgpu::graphite::LoadOp`), used by render pass
attachments. -/
inductive GLoadOp where
  | kLoad
  | kClear
  | kDiscard
  deriving DecidableEq

end skgpu.graphite

/-- The `SkColorType` enumeration (the color types the source's tables mention,
together with `kUnknown` and a few color types the Dawn backend does not map,
such as `kRGB_565`). -/
inductive SkColorType where
  | kUnknown
  | kAlpha_8
  | kRGB_565
  | kARGB_4444
  | kRGBA_8888
  | kRGB_888x
  | kBGRA_8888
  | kRGBA_1010102
  | kGray_8
  | kRGBA_F16
  | kRGBA_F32
  | kR8G8_unorm
  | kA16_float
  | kR16G16_float
  | kA16_unorm
  | kR16G16_unorm
  | kSRGBA_8888
  | kR8_unorm
  deriving DecidableEq, Fintype

/-- The `SkTextureCompressionType` enumeration. -/
inductive SkTextureCompressionType where
  | kNone
  | kETC2_RGB8_UNORM
  | kBC1_RGB8_UNORM
  | kBC1_RGBA8_UNORM
  deriving DecidableEq, Fintype

namespace skgpu.graphite

open wgpu

/-- Number of entries of `DawnCaps::fFormatTable` / `kFormats`
(`DawnCaps::kFormatCnt`; the source's `static_assert` checks the two agree).
In the non-Emscripten configuration the table has 18 entries. -/
def DawnCaps.kFormatCnt : Nat := 18

/-- The `kFormats` table: all `wgpu::TextureFormat` the backend supports, in
the source's order, with the `Undefined` sentinel last. -/
def kFormats : List TextureFormat := [
  .RGBA8Unorm,
  .R8Unorm,
  .R16Unorm,
  .BGRA8Unorm,
  .RGBA16Float,
  .R16Float,
  .RG8Unorm,
  .RG16Unorm,
  .RGB10A2Unorm,
  .RG16Float,
  .Stencil8,
  .Depth16Unorm,
  .Depth32Float,
  .Depth24PlusStencil8,
  .BC1RGBAUnorm,
  .ETC2RGB8Unorm,
  .External,
  .Undefined]

/-- One step of the loop of `DawnCaps::GetFormatIndex`: scan the remaining
entries (the absolute index of the head is `i`); return the index of the first
entry equal to `format`, or the index of the `Undefined` sentinel when it is
reached first (the source's `SkDEBUGFAILF` branch).  `none` models falling off
the end of the table, i.e. reaching the `SkUNREACHABLE` after the loop. -/
def DawnCaps.getFormatIndexLoop (format : TextureFormat) :
    List TextureFormat → Nat → Option Nat
  | [], _ => none
  | f :: rest, i =>
      if format = f then some i
      else if f = TextureFormat.Undefined then some i
      else DawnCaps.getFormatIndexLoop format rest (i + 1)

/-- `DawnCaps::GetFormatIndex`: index of `format` inside `kFormats`, falling
back to the `Undefined` sentinel's index.  The `SkUNREACHABLE` after the loop
is modelled by the fallback value `0` of the `none` case (the theorems show it
is never used). -/
def DawnCaps.GetFormatIndex (format : TextureFormat) : Nat :=
  (DawnCaps.getFormatIndexLoop format kFormats 0).getD 0

end skgpu.graphite

namespace skgpu.graphite

open wgpu

/-- The `DawnTextureSpec` record (fields used by the translated source).  The
accessor `getViewFormat` is modelled as the `fViewFormat` field; every
construction in the translated source sets `fViewFormat` explicitly. -/
structure DawnTextureSpec where
  fFormat : TextureFormat := .Undefined
  fViewFormat : TextureFormat := .Undefined
  fUsage : Nat := 0
  fAspect : TextureAspect := .All
  deriving DecidableEq

/-- View format of a texture spec (`DawnTextureSpec::getViewFormat`). -/
def DawnTextureSpec.getViewFormat (s : DawnTextureSpec) : TextureFormat :=
  s.fViewFormat

/-- The `DawnTextureInfo` record with its default field values (an invalid /
empty descriptor: `Undefined` format, one sample, no mips, no usage). -/
structure DawnTextureInfo where
  fSampleCount : Nat := 1
  fMipmapped : Mipmapped := .kNo
  fFormat : TextureFormat := .Undefined
  fViewFormat : TextureFormat := .Undefined
  fUsage : Nat := 0
  fAspect : TextureAspect := .All
  deriving DecidableEq

/-- View format of a `DawnTextureInfo` (`getViewFormat`). -/
def DawnTextureInfo.getViewFormat (i : DawnTextureInfo) : TextureFormat :=
  i.fViewFormat

/-- The backend-agnostic `TextureInfo`: validity flag, sample count, mip flag
and the Dawn spec.  A default-constructed `TextureInfo` (the `{}` the source
returns for unsupported requests) is invalid. -/
structure TextureInfo where
  fValid : Bool := false
  fSampleCount : Nat := 1
  fMipmapped : Mipmapped := .kNo
  fSpec : DawnTextureSpec := {}
  deriving DecidableEq

/-- `TextureInfo::isValid`. -/
def TextureInfo.isValid (i : TextureInfo) : Bool := i.fValid

/-- `TextureInfo::numSamples`. -/
def TextureInfo.numSamples (i : TextureInfo) : Nat := i.fSampleCount

/-- `TextureInfo::mipmapped`. -/
def TextureInfo.mipmapped (i : TextureInfo) : Mipmapped := i.fMipmapped

/-- `TextureInfo::dawnTextureSpec`. -/
def TextureInfo.dawnTextureSpec (i : TextureInfo) : DawnTextureSpec := i.fSpec

/-- Implicit conversion `DawnTextureInfo -> TextureInfo` used by the source's
`return info;` statements: the result is a valid texture info carrying the
descriptor's fields. -/
def DawnTextureInfo.toTextureInfo (i : DawnTextureInfo) : TextureInfo :=
  { fValid := true,
    fSampleCount := i.fSampleCount,
    fMipmapped := i.fMipmapped,
    fSpec := { fFormat := i.fFormat, fViewFormat := i.fViewFormat,
               fUsage := i.fUsage, fAspect := i.fAspect } }

/-- `TextureInfo::getDawnTextureInfo(&info)`: when the texture info is valid
the out-parameter receives its fields; otherwise the out-parameter keeps its
default value (the source ignores the returned `bool` at the call sites that
matter here, so the combined effect is modelled directly). -/
def TextureInfo.getDawnTextureInfoOrDefault (i : TextureInfo) : DawnTextureInfo :=
  if i.fValid then
    { fSampleCount := i.fSampleCount, fMipmapped := i.fMipmapped,
      fFormat := i.fSpec.fFormat, fViewFormat := i.fSpec.fViewFormat,
      fUsage := i.fSpec.fUsage, fAspect := i.fSpec.fAspect }
  else {}

/-- Per-color-type flags of `Caps::ColorTypeInfo` (declared in `Caps.h`). -/
def ColorTypeInfo.kUploadData_Flag : Nat := 0x1
def ColorTypeInfo.kRenderable_Flag : Nat := 0x2

/-- An entry of a format's color-type compatibility list
(`Caps::ColorTypeInfo`): color type, flags and read/write channel swizzles. -/
structure ColorTypeInfo where
  fColorType : SkColorType := .kUnknown
  fFlags : Nat := 0
  fReadSwizzle : String := "rgba"
  fWriteSwizzle : String := "rgba"
  deriving DecidableEq

/-- Capability bit flags of `DawnCaps::FormatInfo` (declared in `DawnCaps.h`,
outside the provided sources).  Only their pairwise distinctness as bits
matters; `kAllFlags` is their union, as in the header. -/
def DawnCaps.FormatInfo.kTexturable_Flag : Nat := 0x1
def DawnCaps.FormatInfo.kRenderable_Flag : Nat := 0x2
def DawnCaps.FormatInfo.kMSAA_Flag : Nat := 0x4
def DawnCaps.FormatInfo.kStorage_Flag : Nat := 0x8
def DawnCaps.FormatInfo.kAllFlags : Nat :=
  DawnCaps.FormatInfo.kTexturable_Flag ||| DawnCaps.FormatInfo.kRenderable_Flag |||
  DawnCaps.FormatInfo.kMSAA_Flag ||| DawnCaps.FormatInfo.kStorage_Flag

/-- An entry of `DawnCaps::fFormatTable`: capability flags and the list of
compatible color types (`fColorTypeInfoCount` is the list's length).  The
default-constructed entry has no flags and no color types. -/
structure DawnCaps.FormatInfo where
  fFlags : Nat := 0
  fColorTypeInfos : List ColorTypeInfo := []
  deriving DecidableEq

/-- The Dawn device features the translated source queries with
`device.HasFeature` (`wgpu::FeatureName`). -/
structure DeviceFeatures where
  R8UnormStorage : Bool := false
  Unorm16TextureFormats : Bool := false
  TextureCompressionETC2 : Bool := false
  TextureCompressionBC : Bool := false
  TransientAttachments : Bool := false
  DawnLoadResolveTexture : Bool := false
  MSAARenderToSingleSampled : Bool := false
  BufferMapExtendedUsages : Bool := false
  deriving DecidableEq

/-- Device limits reported by `device.GetLimits` that the source reads. -/
structure DawnDeviceLimits where
  maxTextureDimension2D : Nat := 8192
  deriving DecidableEq

/-- Capability state of a constructed `DawnCaps` object: the format table, the
color-type-to-format table, the device limits it captured, and the feature
flags.  All fields are written during construction only. -/
structure DawnCaps where
  fFormatTable : List DawnCaps.FormatInfo
  fColorTypeToFormatTable : SkColorType → wgpu.TextureFormat
  fMaxTextureSize : Nat
  fRequiredTransferBufferAlignment : Nat
  fRequiredUniformBufferAlignment : Nat
  fRequiredStorageBufferAlignment : Nat
  fTextureDataRowBytesAlignment : Nat
  fSupportedTransientAttachmentUsage : Nat
  fSupportedResolveTextureLoadOp : Option wgpu.LoadOp
  fDefaultMSAASamples : Nat

end skgpu.graphite

namespace skgpu.graphite

open wgpu

/-- Table access `fFormatTable[GetFormatIndex(format)]` on an explicit
table. -/
def DawnCaps.getFormatInfoFromTable (table : List DawnCaps.FormatInfo)
    (format : TextureFormat) : DawnCaps.FormatInfo :=
  table.getD (DawnCaps.GetFormatIndex format) {}

/-- `DawnCaps::initFormatTable`: the format table as populated at
construction, as a function of the device features (the non-Emscripten
branches).  Entries the source leaves untouched keep their default value, as
the C++ array's default-initialized `FormatInfo` does. -/
def DawnCaps.initFormatTable (dev : DeviceFeatures) : List DawnCaps.FormatInfo :=
  let t : List DawnCaps.FormatInfo := List.replicate DawnCaps.kFormatCnt {}
  -- Format: RGBA8Unorm
  let t := t.set (DawnCaps.GetFormatIndex .RGBA8Unorm)
    { fFlags := DawnCaps.FormatInfo.kAllFlags,
      fColorTypeInfos := [
        { fColorType := .kRGBA_8888,
          fFlags := ColorTypeInfo.kUploadData_Flag ||| ColorTypeInfo.kRenderable_Flag },
        { fColorType := .kRGB_888x,
          fFlags := ColorTypeInfo.kUploadData_Flag,
          fReadSwizzle := "rgb1" }] }
  -- Format: R8Unorm (`fFlags &= ~kStorage_Flag` when R8UnormStorage is absent)
  let t := t.set (DawnCaps.GetFormatIndex .R8Unorm)
    { fFlags := if dev.R8UnormStorage then DawnCaps.FormatInfo.kAllFlags
                else DawnCaps.FormatInfo.kAllFlags &&&
                     (0xFFFFFFFF ^^^ DawnCaps.FormatInfo.kStorage_Flag),
      fColorTypeInfos := [
        { fColorType := .kR8_unorm,
          fFlags := ColorTypeInfo.kUploadData_Flag ||| ColorTypeInfo.kRenderable_Flag },
        { fColorType := .kAlpha_8,
          fFlags := ColorTypeInfo.kUploadData_Flag ||| ColorTypeInfo.kRenderable_Flag,
          fReadSwizzle := "000r", fWriteSwizzle := "a000" },
        { fColorType := .kGray_8,
          fFlags := ColorTypeInfo.kUploadData_Flag,
          fReadSwizzle := "rrr1" }] }
  -- Format: R16Unorm (written only when Unorm16TextureFormats is supported)
  let t := if dev.Unorm16TextureFormats then
      t.set (DawnCaps.GetFormatIndex .R16Unorm)
        { fFlags := DawnCaps.FormatInfo.kAllFlags &&&
                    (0xFFFFFFFF ^^^ DawnCaps.FormatInfo.kStorage_Flag),
          fColorTypeInfos := [
            { fColorType := .kA16_unorm,
              fFlags := ColorTypeInfo.kUploadData_Flag ||| ColorTypeInfo.kRenderable_Flag,
              fReadSwizzle := "000r", fWriteSwizzle := "a000" }] }
    else t
  -- Format: BGRA8Unorm
  let t := t.set (DawnCaps.GetFormatIndex .BGRA8Unorm)
    { fFlags := DawnCaps.FormatInfo.kAllFlags,
      fColorTypeInfos := [
        { fColorType := .kBGRA_8888,
          fFlags := ColorTypeInfo.kUploadData_Flag ||| ColorTypeInfo.kRenderable_Flag },
        { fColorType := .kRGB_888x,
          fFlags := ColorTypeInfo.kUploadData_Flag }] }
  -- Format: RGBA16Float
  let t := t.set (DawnCaps.GetFormatIndex .RGBA16Float)
    { fFlags := DawnCaps.FormatInfo.kAllFlags,
      fColorTypeInfos := [
        { fColorType := .kRGBA_F16,
          fFlags := ColorTypeInfo.kUploadData_Flag ||| ColorTypeInfo.kRenderable_Flag }] }
  -- Format: R16Float
  let t := t.set (DawnCaps.GetFormatIndex .R16Float)
    { fFlags := DawnCaps.FormatInfo.kAllFlags,
      fColorTypeInfos := [
        { fColorType := .kA16_float,
          fFlags := ColorTypeInfo.kUploadData_Flag ||| ColorTypeInfo.kRenderable_Flag,
          fReadSwizzle := "000r", fWriteSwizzle := "a000" }] }
  -- Format: RG8Unorm
  let t := t.set (DawnCaps.GetFormatIndex .RG8Unorm)
    { fFlags := DawnCaps.FormatInfo.kAllFlags,
      fColorTypeInfos := [
        { fColorType := .kR8G8_unorm,
          fFlags := ColorTypeInfo.kUploadData_Flag ||| ColorTypeInfo.kRenderable_Flag }] }
  -- Format: RG16Unorm (written only when Unorm16TextureFormats is supported)
  let t := if dev.Unorm16TextureFormats then
      t.set (DawnCaps.GetFormatIndex .RG16Unorm)
        { fFlags := DawnCaps.FormatInfo.kAllFlags,
          fColorTypeInfos := [
            { fColorType := .kR16G16_unorm,
              fFlags := ColorTypeInfo.kUploadData_Flag ||| ColorTypeInfo.kRenderable_Flag }] }
    else t
  -- Format: RGB10A2Unorm
  let t := t.set (DawnCaps.GetFormatIndex .RGB10A2Unorm)
    { fFlags := DawnCaps.FormatInfo.kAllFlags,
      fColorTypeInfos := [
        { fColorType := .kRGBA_1010102,
          fFlags := ColorTypeInfo.kUploadData_Flag ||| ColorTypeInfo.kRenderable_Flag }] }
  -- Format: RG16Float
  let t := t.set (DawnCaps.GetFormatIndex .RG16Float)
    { fFlags := DawnCaps.FormatInfo.kAllFlags,
      fColorTypeInfos := [
        { fColorType := .kR16G16_float,
          fFlags := ColorTypeInfo.kUploadData_Flag ||| ColorTypeInfo.kRenderable_Flag }] }
  -- Format: ETC2RGB8Unorm (only when the feature is supported)
  let t := if dev.TextureCompressionETC2 then
      t.set (DawnCaps.GetFormatIndex .ETC2RGB8Unorm)
        { fFlags := DawnCaps.FormatInfo.kTexturable_Flag,
          fColorTypeInfos := [
            { fColorType := .kRGB_888x,
              fFlags := ColorTypeInfo.kUploadData_Flag }] }
    else t
  -- Format: BC1RGBAUnorm (only when the feature is supported)
  let t := if dev.TextureCompressionBC then
      t.set (DawnCaps.GetFormatIndex .BC1RGBAUnorm)
        { fFlags := DawnCaps.FormatInfo.kTexturable_Flag,
          fColorTypeInfos := [
            { fColorType := .kRGBA_8888,
              fFlags := ColorTypeInfo.kUploadData_Flag }] }
    else t
  -- Format: Stencil8
  let t := t.set (DawnCaps.GetFormatIndex .Stencil8)
    { fFlags := DawnCaps.FormatInfo.kMSAA_Flag, fColorTypeInfos := [] }
  -- Format: Depth16Unorm
  let t := t.set (DawnCaps.GetFormatIndex .Depth16Unorm)
    { fFlags := DawnCaps.FormatInfo.kMSAA_Flag, fColorTypeInfos := [] }
  -- Format: Depth32Float
  let t := t.set (DawnCaps.GetFormatIndex .Depth32Float)
    { fFlags := DawnCaps.FormatInfo.kMSAA_Flag, fColorTypeInfos := [] }
  -- Format: Depth24PlusStencil8
  let t := t.set (DawnCaps.GetFormatIndex .Depth24PlusStencil8)
    { fFlags := DawnCaps.FormatInfo.kMSAA_Flag, fColorTypeInfos := [] }
  -- Format: External
  let t := t.set (DawnCaps.GetFormatIndex .External)
    { fFlags := DawnCaps.FormatInfo.kTexturable_Flag,
      fColorTypeInfos := [ { fColorType := .kRGBA_8888 } ] }
  -- Format: Undefined
  let t := t.set (DawnCaps.GetFormatIndex .Undefined)
    { fFlags := 0, fColorTypeInfos := [] }
  t

/-- `DawnCaps::setColorType`: walk the candidate formats in priority order and
map the color type to the first format whose color-type list contains it; when
no candidate matches, the table entry is left unchanged. -/
def DawnCaps.setColorType (ftable : List DawnCaps.FormatInfo)
    (ctTable : SkColorType → TextureFormat) (colorType : SkColorType) :
    List TextureFormat → (SkColorType → TextureFormat)
  | [] => ctTable
  | f :: rest =>
      if (DawnCaps.getFormatInfoFromTable ftable f).fColorTypeInfos.any
           (fun c => decide (c.fColorType = colorType)) then
        Function.update ctTable colorType f
      else
        DawnCaps.setColorType ftable ctTable colorType rest

/-- The color-type-to-format table as populated at the end of
`DawnCaps::initFormatTable`: first filled with `Undefined`
(`std::fill_n`), then one `setColorType` call per color type, in the source's
order. -/
def DawnCaps.initColorTypeToFormatTable (dev : DeviceFeatures) :
    SkColorType → TextureFormat :=
  let ftable := DawnCaps.initFormatTable dev
  let ct : SkColorType → TextureFormat := fun _ => .Undefined
  let ct := DawnCaps.setColorType ftable ct .kAlpha_8 [.R8Unorm]
  let ct := DawnCaps.setColorType ftable ct .kRGBA_8888 [.RGBA8Unorm]
  let ct := DawnCaps.setColorType ftable ct .kRGB_888x [.RGBA8Unorm, .BGRA8Unorm]
  let ct := DawnCaps.setColorType ftable ct .kBGRA_8888 [.BGRA8Unorm]
  let ct := DawnCaps.setColorType ftable ct .kGray_8 [.R8Unorm]
  let ct := DawnCaps.setColorType ftable ct .kR8_unorm [.R8Unorm]
  let ct := DawnCaps.setColorType ftable ct .kRGBA_F16 [.RGBA16Float]
  let ct := DawnCaps.setColorType ftable ct .kA16_float [.R16Float]
  let ct := DawnCaps.setColorType ftable ct .kR8G8_unorm [.RG8Unorm]
  let ct := DawnCaps.setColorType ftable ct .kRGBA_1010102 [.RGB10A2Unorm]
  let ct := DawnCaps.setColorType ftable ct .kR16G16_float [.RG16Float]
  let ct := DawnCaps.setColorType ftable ct .kA16_unorm [.R16Unorm]
  let ct := DawnCaps.setColorType ftable ct .kR16G16_unorm [.RG16Unorm]
  ct

/-- The `DawnCaps` constructor (`initCaps` + `initFormatTable`), as a function
of the device's features and limits: fixed alignment constants, the max
texture size from the device limits, the transient-attachment usage and
resolve-texture load op keyed on features, and both tables.
`fDefaultMSAASamples` keeps the base class `Caps` default of 4 (set in
`Caps.h`, outside the provided sources). -/
def DawnCaps.construct (dev : DeviceFeatures) (limits : DawnDeviceLimits) : DawnCaps :=
  { fFormatTable := DawnCaps.initFormatTable dev,
    fColorTypeToFormatTable := DawnCaps.initColorTypeToFormatTable dev,
    fMaxTextureSize := limits.maxTextureDimension2D,
    fRequiredTransferBufferAlignment := 4,
    fRequiredUniformBufferAlignment := 256,
    fRequiredStorageBufferAlignment := 256,
    fTextureDataRowBytesAlignment := 256,
    fSupportedTransientAttachmentUsage :=
      if dev.TransientAttachments then TextureUsage.TransientAttachment else 0,
    fSupportedResolveTextureLoadOp :=
      if dev.DawnLoadResolveTexture then some LoadOp.ExpandResolveTexture else none,
    fDefaultMSAASamples := 4 }

end skgpu.graphite

namespace skgpu.graphite

open wgpu

/-- `DawnCaps::getFormatInfo`: `fFormatTable[GetFormatIndex(format)]`. -/
def DawnCaps.getFormatInfo (caps : DawnCaps) (format : TextureFormat) :
    DawnCaps.FormatInfo :=
  caps.fFormatTable.getD (DawnCaps.GetFormatIndex format) {}

/-- `Caps::getFormatFromColorType` (an accessor of `Caps.h`, outside the
provided sources): the color-type-to-format lookup the spec describes for
default surface format selection, reading `fColorTypeToFormatTable`. -/
def DawnCaps.getFormatFromColorType (caps : DawnCaps) (colorType : SkColorType) :
    TextureFormat :=
  caps.fColorTypeToFormatTable colorType

/-- `DawnCaps::isTexturable(wgpu::TextureFormat)`: the texturable flag of the
format's table entry. -/
def DawnCaps.isTexturable (caps : DawnCaps) (format : TextureFormat) : Bool :=
  decide (DawnCaps.FormatInfo.kTexturable_Flag &&& (caps.getFormatInfo format).fFlags ≠ 0)

/-- `DawnCaps::onIsTexturable(const TextureInfo&)`: valid, usable as a texture
binding, the multiplanar plane/view-format consistency checks, then the
format's texturable flag. -/
def DawnCaps.onIsTexturable (caps : DawnCaps) (info : TextureInfo) : Bool :=
  if !info.isValid then false
  else if info.dawnTextureSpec.fUsage &&& TextureUsage.TextureBinding = 0 then false
  else
    let spec := info.dawnTextureSpec
    match spec.fFormat with
    | .R8BG8Biplanar420Unorm =>
        if spec.fAspect = .Plane0Only ∧ spec.getViewFormat ≠ .R8Unorm then false
        else if spec.fAspect = .Plane1Only ∧ spec.getViewFormat ≠ .RG8Unorm then false
        else caps.isTexturable info.dawnTextureSpec.getViewFormat
    | .R10X6BG10X6Biplanar420Unorm =>
        if spec.fAspect = .Plane0Only ∧ spec.getViewFormat ≠ .R16Unorm then false
        else if spec.fAspect = .Plane1Only ∧ spec.getViewFormat ≠ .RG16Unorm then false
        else caps.isTexturable info.dawnTextureSpec.getViewFormat
    | .R8BG8A8Triplanar420Unorm =>
        if spec.fAspect = .Plane0Only ∧ spec.getViewFormat ≠ .R8Unorm then false
        else if spec.fAspect = .Plane1Only ∧ spec.getViewFormat ≠ .RG8Unorm then false
        else if spec.fAspect = .Plane2Only ∧ spec.getViewFormat ≠ .R8Unorm then false
        else caps.isTexturable info.dawnTextureSpec.getViewFormat
    | _ => caps.isTexturable info.dawnTextureSpec.getViewFormat

/-- `DawnCaps::maxRenderTargetSampleCount`: 0 without the renderable flag,
8 with the MSAA flag, 1 otherwise. -/
def DawnCaps.maxRenderTargetSampleCount (caps : DawnCaps) (format : TextureFormat) :
    Nat :=
  let formatInfo := caps.getFormatInfo format
  if formatInfo.fFlags &&& DawnCaps.FormatInfo.kRenderable_Flag = 0 then 0
  else if formatInfo.fFlags &&& DawnCaps.FormatInfo.kMSAA_Flag ≠ 0 then 8
  else 1

/-- `DawnCaps::isRenderable(wgpu::TextureFormat, uint32_t)`:
`sampleCount <= maxRenderTargetSampleCount(format)`. -/
def DawnCaps.isRenderableFormat (caps : DawnCaps) (format : TextureFormat)
    (sampleCount : Nat) : Bool :=
  decide (sampleCount ≤ caps.maxRenderTargetSampleCount format)

/-- `DawnCaps::isRenderable(const TextureInfo&)`: valid, has the render
attachment usage, and the view format is renderable at the info's sample
count. -/
def DawnCaps.isRenderable (caps : DawnCaps) (info : TextureInfo) : Bool :=
  info.isValid &&
  decide (info.dawnTextureSpec.fUsage &&& TextureUsage.RenderAttachment ≠ 0) &&
  caps.isRenderableFormat info.dawnTextureSpec.getViewFormat info.numSamples

/-- `DawnCaps::isStorage`: valid, has the storage binding usage, single
sampled, and the view format's table entry has the storage flag. -/
def DawnCaps.isStorage (caps : DawnCaps) (info : TextureInfo) : Bool :=
  if !info.isValid then false
  else if info.dawnTextureSpec.fUsage &&& TextureUsage.StorageBinding = 0 then false
  else
    let formatInfo := caps.getFormatInfo info.dawnTextureSpec.getViewFormat
    decide (info.numSamples = 1) &&
    decide (DawnCaps.FormatInfo.kStorage_Flag &&& formatInfo.fFlags ≠ 0)

/-- `DawnCaps::getDefaultSampledTextureInfo`: the usage is texture binding +
both copy directions, plus render attachment for a renderable request; an
`Undefined` color-type-to-format lookup yields the empty info. -/
def DawnCaps.getDefaultSampledTextureInfo (caps : DawnCaps) (colorType : SkColorType)
    (mipmapped : Mipmapped) (_prot : Protectedness) (renderable : Renderable) :
    TextureInfo :=
  let usage := TextureUsage.TextureBinding ||| TextureUsage.CopyDst |||
               TextureUsage.CopySrc
  let usage := if renderable = Renderable.kYes
               then usage ||| TextureUsage.RenderAttachment else usage
  let format := caps.getFormatFromColorType colorType
  if format = TextureFormat.Undefined then {}
  else
    DawnTextureInfo.toTextureInfo
      { fSampleCount := 1, fMipmapped := mipmapped, fFormat := format,
        fViewFormat := format, fUsage := usage }

/-- `DawnCaps::getTextureInfoForSampledCopy`. -/
def DawnCaps.getTextureInfoForSampledCopy (_caps : DawnCaps)
    (textureInfo : TextureInfo) (mipmapped : Mipmapped) : TextureInfo :=
  if !textureInfo.isValid then {}
  else
    let info := textureInfo.getDawnTextureInfoOrDefault
    DawnTextureInfo.toTextureInfo
      { info with
        fSampleCount := 1, fMipmapped := mipmapped,
        fUsage := TextureUsage.TextureBinding ||| TextureUsage.CopyDst |||
                  TextureUsage.CopySrc }

/-- The anonymous-namespace helper `format_from_compression`: ETC2 and BC1
map to their formats, everything else to `Undefined`. -/
def format_from_compression (compression : SkTextureCompressionType) :
    TextureFormat :=
  match compression with
  | .kETC2_RGB8_UNORM => .ETC2RGB8Unorm
  | .kBC1_RGBA8_UNORM => .BC1RGBAUnorm
  | _ => .Undefined

/-- `DawnCaps::getDefaultCompressedTextureInfo`. -/
def DawnCaps.getDefaultCompressedTextureInfo (_caps : DawnCaps)
    (compression : SkTextureCompressionType) (mipmapped : Mipmapped)
    (_prot : Protectedness) : TextureInfo :=
  let usage := TextureUsage.TextureBinding ||| TextureUsage.CopyDst |||
               TextureUsage.CopySrc
  let format := format_from_compression compression
  if format = TextureFormat.Undefined then {}
  else
    DawnTextureInfo.toTextureInfo
      { fSampleCount := 1, fMipmapped := mipmapped, fFormat := format,
        fViewFormat := format, fUsage := usage }

/-- `DawnCaps::getDefaultMSAATextureInfo`. -/
def DawnCaps.getDefaultMSAATextureInfo (caps : DawnCaps)
    (singleSampledInfo : TextureInfo) (discardable : Discardable) : TextureInfo :=
  if caps.fDefaultMSAASamples ≤ 1 then {}
  else
    let singleSpec := singleSampledInfo.dawnTextureSpec
    let usage := TextureUsage.RenderAttachment
    let usage := if caps.fSupportedTransientAttachmentUsage ≠ 0 ∧
                    discardable = Discardable.kYes
                 then usage ||| caps.fSupportedTransientAttachmentUsage
                 else usage
    DawnTextureInfo.toTextureInfo
      { fSampleCount := caps.fDefaultMSAASamples, fMipmapped := .kNo,
        fFormat := singleSpec.fFormat, fViewFormat := singleSpec.fFormat,
        fUsage := usage }

/-- Depth/stencil aspect request (`skgpu::graphite::DepthStencilFlags`). -/
inductive DepthStencilFlags where
  | kNone
  | kDepth
  | kStencil
  | kDepthStencil
  deriving DecidableEq

/-- Modelled from the spec: the helper `DawnDepthStencilFlagsToFormat`
(declared in `DawnGraphiteUtilsPriv.h`, not among the provided sources) maps
the requested depth/stencil aspects to a concrete native format, with
`Undefined` as the unsupported sentinel. -/
def DawnDepthStencilFlagsToFormat (flags : DepthStencilFlags) : TextureFormat :=
  match flags with
  | .kNone => .Undefined
  | .kDepth => .Depth32Float
  | .kStencil => .Stencil8
  | .kDepthStencil => .Depth24PlusStencil8

/-- `DawnCaps::getDefaultDepthStencilTextureInfo`. -/
def DawnCaps.getDefaultDepthStencilTextureInfo (caps : DawnCaps)
    (depthStencilType : DepthStencilFlags) (sampleCount : Nat)
    (_prot : Protectedness) : TextureInfo :=
  let usage := TextureUsage.RenderAttachment
  let usage := if caps.fSupportedTransientAttachmentUsage ≠ 0
               then usage ||| caps.fSupportedTransientAttachmentUsage
               else usage
  DawnTextureInfo.toTextureInfo
    { fSampleCount := sampleCount, fMipmapped := .kNo,
      fFormat := DawnDepthStencilFlagsToFormat depthStencilType,
      fViewFormat := DawnDepthStencilFlagsToFormat depthStencilType,
      fUsage := usage }

/-- `DawnCaps::getDefaultStorageTextureInfo`. -/
def DawnCaps.getDefaultStorageTextureInfo (caps : DawnCaps)
    (colorType : SkColorType) : TextureInfo :=
  let format := caps.getFormatFromColorType colorType
  if format = TextureFormat.Undefined then {}
  else if DawnCaps.FormatInfo.kStorage_Flag &&& (caps.getFormatInfo format).fFlags = 0
  then {}
  else
    DawnTextureInfo.toTextureInfo
      { fSampleCount := 1, fMipmapped := .kNo, fFormat := format,
        fViewFormat := format,
        fUsage := TextureUsage.StorageBinding ||| TextureUsage.TextureBinding |||
                  TextureUsage.CopySrc }

/-- `DawnCaps::getColorTypeInfo`: `nullptr` (here `none`) for an `Undefined`
view format or when the format's color-type list has no entry for the color
type; otherwise the first matching entry. -/
def DawnCaps.getColorTypeInfo (caps : DawnCaps) (colorType : SkColorType)
    (textureInfo : TextureInfo) : Option ColorTypeInfo :=
  let dawnFormat := textureInfo.dawnTextureSpec.getViewFormat
  if dawnFormat = TextureFormat.Undefined then none
  else
    (caps.getFormatInfo dawnFormat).fColorTypeInfos.find?
      (fun ctInfo => decide (ctInfo.fColorType = colorType))

/-- `DawnCaps::supportsWritePixels`: the usage includes `CopyDst`. -/
def DawnCaps.supportsWritePixels (_caps : DawnCaps) (textureInfo : TextureInfo) :
    Bool :=
  decide (textureInfo.dawnTextureSpec.fUsage &&& TextureUsage.CopyDst ≠ 0)

/-- `DawnCaps::supportsReadPixels`: the usage includes `CopySrc`. -/
def DawnCaps.supportsReadPixels (_caps : DawnCaps) (textureInfo : TextureInfo) :
    Bool :=
  decide (textureInfo.dawnTextureSpec.fUsage &&& TextureUsage.CopySrc ≠ 0)

/-- `DawnCaps::supportedWritePixelsColorType`: returns
`{dstColorType, false}` unconditionally. -/
def DawnCaps.supportedWritePixelsColorType (_caps : DawnCaps)
    (dstColorType : SkColorType) (_dstTextureInfo : TextureInfo)
    (_srcColorType : SkColorType) : SkColorType × Bool :=
  (dstColorType, false)

/-- `DawnCaps::supportedReadPixelsColorType`: the source color type when the
format it maps to lists it, `kUnknown` otherwise. -/
def DawnCaps.supportedReadPixelsColorType (caps : DawnCaps)
    (srcColorType : SkColorType) (_srcTextureInfo : TextureInfo)
    (_dstColorType : SkColorType) : SkColorType × Bool :=
  let dawnFormat := caps.getFormatFromColorType srcColorType
  let info := caps.getFormatInfo dawnFormat
  if info.fColorTypeInfos.any (fun c => decide (c.fColorType = srcColorType)) then
    (srcColorType, false)
  else
    (.kUnknown, false)

end skgpu.graphite

namespace skgpu.graphite

open wgpu

/-- Integer dimensions (`SkISize`); the source asserts they are non-empty
(strictly positive), so they are modelled as naturals. -/
structure SkISize where
  fWidth : Nat := 0
  fHeight : Nat := 0
  deriving DecidableEq

/-- A graphite resource key (`GraphiteResourceKey`): the resource type, the
shareable flag, and the 32-bit data words written through the builder. -/
structure GraphiteResourceKey where
  fType : Nat := 0
  fShareable : Bool := false
  fData : List Nat := []
  deriving DecidableEq

/-- Modelled from the spec: `Caps::SamplesToKey` (declared in `Caps.h`, which
is not among the provided sources) encodes a supported sample count as a small
key obeying the documented 3-bit budget; the supported sample counts
1, 2, 4, 8, 16 are encoded as 0, 1, 2, 3, 4.  Unsupported counts are
unreachable in the source; the model returns 0 for them. -/
def SamplesToKey (numSamples : Nat) : Nat :=
  match numSamples with
  | 1 => 0
  | 2 => 1
  | 4 => 2
  | 8 => 3
  | 16 => 4
  | _ => 0

/-- Sample counts for which `SamplesToKey` is defined in the source. -/
def SupportedSampleCount (numSamples : Nat) : Prop :=
  numSamples = 1 ∨ numSamples = 2 ∨ numSamples = 4 ∨ numSamples = 8 ∨ numSamples = 16

/-- `DawnCaps::buildKeyForTexture`: two words of dimensions, one word holding
the view format's numeric value, and one word packing the samples key (bits
0-2), the mip flag (bit 3) and the usage bits (bits 4-31).  All four data
words are 32-bit (`% 2 ^ 32` models the `uint32_t` builder slots and
casts). -/
def DawnCaps.buildKeyForTexture (_caps : DawnCaps) (dimensions : SkISize)
    (info : TextureInfo) (resourceType : Nat) (shareable : Bool) :
    GraphiteResourceKey :=
  let dawnSpec := info.dawnTextureSpec
  let formatKey := dawnSpec.getViewFormat.val % 2 ^ 32
  let samplesKey := SamplesToKey info.numSamples
  let isMipped : Bool := decide (info.mipmapped = Mipmapped.kYes)
  { fType := resourceType,
    fShareable := shareable,
    fData := [dimensions.fWidth % 2 ^ 32,
              dimensions.fHeight % 2 ^ 32,
              formatKey,
              (samplesKey |||
               (cond isMipped 1 0) <<< 3 |||
               (dawnSpec.fUsage % 2 ^ 32) <<< 4) % 2 ^ 32] }

/-- `Caps::resolveTextureLoadOp` (accessor of `Caps.h`): the load op recorded
at construction when the `DawnLoadResolveTexture` feature is present. -/
def DawnCaps.resolveTextureLoadOp (caps : DawnCaps) : Option wgpu.LoadOp :=
  caps.fSupportedResolveTextureLoadOp

/-- A render pass attachment (`AttachmentDesc`): its texture info and load
op. -/
structure AttachmentDesc where
  fTextureInfo : TextureInfo := {}
  fLoadOp : GLoadOp := .kClear
  deriving DecidableEq

/-- The parts of `RenderPassDesc` the translated source reads
(`fWriteSwizzleKey` stands for `fWriteSwizzle.asKey()`). -/
structure RenderPassDesc where
  fColorAttachment : AttachmentDesc := {}
  fColorResolveAttachment : AttachmentDesc := {}
  fDepthStencilAttachment : AttachmentDesc := {}
  fWriteSwizzleKey : Nat := 0
  deriving DecidableEq

/-- `DawnCaps::getRenderPassDescKeyForPipeline`: a 64-bit key whose high word
packs the color attachment's view format (16 bits), sample count (15 bits)
and the load-resolve-attachment bit, and whose low word packs the
depth-stencil attachment's view format and sample count (16 bits each).
`% 2 ^ 32` / `% 2 ^ 64` model the `uint32_t` / `uint64_t` arithmetic. -/
def DawnCaps.getRenderPassDescKeyForPipeline (caps : DawnCaps)
    (renderPassDesc : RenderPassDesc) : Nat :=
  let colorInfo :=
    renderPassDesc.fColorAttachment.fTextureInfo.getDawnTextureInfoOrDefault
  let depthStencilInfo :=
    renderPassDesc.fDepthStencilAttachment.fTextureInfo.getDawnTextureInfoOrDefault
  let shouldIncludeLoadResolveAttachmentBit := caps.resolveTextureLoadOp.isSome
  let loadResolveAttachmentKey : Nat :=
    if shouldIncludeLoadResolveAttachmentBit = true ∧
       renderPassDesc.fColorResolveAttachment.fTextureInfo.isValid = true ∧
       renderPassDesc.fColorResolveAttachment.fLoadOp = GLoadOp.kLoad
    then 1 else 0
  let colorAttachmentKey :=
    ((colorInfo.getViewFormat.val % 2 ^ 32) <<< 16 |||
     colorInfo.fSampleCount <<< 1 ||| loadResolveAttachmentKey) % 2 ^ 32
  let dsAttachmentKey :=
    ((depthStencilInfo.getViewFormat.val % 2 ^ 32) <<< 16 |||
     depthStencilInfo.fSampleCount) % 2 ^ 32
  (colorAttachmentKey <<< 32 ||| dsAttachmentKey) % 2 ^ 64

/-- The parts of `GraphicsPipelineDesc` the key builder reads. -/
structure GraphicsPipelineDesc where
  fRenderStepID : Nat := 0
  fPaintParamsID : Nat := 0
  deriving DecidableEq

/-- A `UniqueKey` as far as the key builders are concerned: the sequence of
32-bit words written through its builder. -/
structure UniqueKey where
  fData : List Nat := []
  deriving DecidableEq

/-- `DawnCaps::makeGraphicsPipelineKey`: render step id, paint id, the two
halves of the render pass key, and the write swizzle key. -/
def DawnCaps.makeGraphicsPipelineKey (caps : DawnCaps)
    (pipelineDesc : GraphicsPipelineDesc) (renderPassDesc : RenderPassDesc) :
    UniqueKey :=
  let renderPassKey := caps.getRenderPassDescKeyForPipeline renderPassDesc
  { fData := [pipelineDesc.fRenderStepID,
              pipelineDesc.fPaintParamsID,
              renderPassKey &&& 0xFFFFFFFF,
              (renderPassKey >>> 32) &&& 0xFFFFFFFF,
              renderPassDesc.fWriteSwizzleKey] }

/-- `DawnCaps::makeComputePipelineKey`: the compute step's unique id. -/
def DawnCaps.makeComputePipelineKey (_caps : DawnCaps)
    (computeStepUniqueID : Nat) : UniqueKey :=
  { fData := [computeStepUniqueID] }

end skgpu.graphite

namespace skgpu.graphite

open wgpu

/-!
State-passing forms of the `const` query methods.  Each method of the C++
class reads the capability state and performs no assignment to it, so its
translation as a state transformer returns the state it was invoked on
together with the query result; the frame theorem below states that the
state component is unchanged.
-/

/-- State-passing `DawnCaps::isTexturable(wgpu::TextureFormat)`. -/
def DawnCaps.isTexturableOp (caps : DawnCaps) (format : TextureFormat) :
    DawnCaps × Bool :=
  (caps, caps.isTexturable format)

/-- State-passing `DawnCaps::onIsTexturable`. -/
def DawnCaps.onIsTexturableOp (caps : DawnCaps) (info : TextureInfo) :
    DawnCaps × Bool :=
  (caps, caps.onIsTexturable info)

/-- State-passing `DawnCaps::isRenderable(const TextureInfo&)`. -/
def DawnCaps.isRenderableOp (caps : DawnCaps) (info : TextureInfo) :
    DawnCaps × Bool :=
  (caps, caps.isRenderable info)

/-- State-passing `DawnCaps::isRenderable(wgpu::TextureFormat, uint32_t)`. -/
def DawnCaps.isRenderableFormatOp (caps : DawnCaps) (format : TextureFormat)
    (sampleCount : Nat) : DawnCaps × Bool :=
  (caps, caps.isRenderableFormat format sampleCount)

/-- State-passing `DawnCaps::isStorage`. -/
def DawnCaps.isStorageOp (caps : DawnCaps) (info : TextureInfo) :
    DawnCaps × Bool :=
  (caps, caps.isStorage info)

/-- State-passing `DawnCaps::maxRenderTargetSampleCount`. -/
def DawnCaps.maxRenderTargetSampleCountOp (caps : DawnCaps)
    (format : TextureFormat) : DawnCaps × Nat :=
  (caps, caps.maxRenderTargetSampleCount format)

/-- State-passing `DawnCaps::getColorTypeInfo`. -/
def DawnCaps.getColorTypeInfoOp (caps : DawnCaps) (colorType : SkColorType)
    (textureInfo : TextureInfo) : DawnCaps × Option ColorTypeInfo :=
  (caps, caps.getColorTypeInfo colorType textureInfo)

/-- State-passing `DawnCaps::getDefaultSampledTextureInfo`. -/
def DawnCaps.getDefaultSampledTextureInfoOp (caps : DawnCaps)
    (colorType : SkColorType) (mipmapped : Mipmapped) (prot : Protectedness)
    (renderable : Renderable) : DawnCaps × TextureInfo :=
  (caps, caps.getDefaultSampledTextureInfo colorType mipmapped prot renderable)

/-- State-passing `DawnCaps::getTextureInfoForSampledCopy`. -/
def DawnCaps.getTextureInfoForSampledCopyOp (caps : DawnCaps)
    (textureInfo : TextureInfo) (mipmapped : Mipmapped) : DawnCaps × TextureInfo :=
  (caps, caps.getTextureInfoForSampledCopy textureInfo mipmapped)

/-- State-passing `DawnCaps::getDefaultCompressedTextureInfo`. -/
def DawnCaps.getDefaultCompressedTextureInfoOp (caps : DawnCaps)
    (compression : SkTextureCompressionType) (mipmapped : Mipmapped)
    (prot : Protectedness) : DawnCaps × TextureInfo :=
  (caps, caps.getDefaultCompressedTextureInfo compression mipmapped prot)

/-- State-passing `DawnCaps::getDefaultMSAATextureInfo`. -/
def DawnCaps.getDefaultMSAATextureInfoOp (caps : DawnCaps)
    (singleSampledInfo : TextureInfo) (discardable : Discardable) :
    DawnCaps × TextureInfo :=
  (caps, caps.getDefaultMSAATextureInfo singleSampledInfo discardable)

/-- State-passing `DawnCaps::getDefaultDepthStencilTextureInfo`. -/
def DawnCaps.getDefaultDepthStencilTextureInfoOp (caps : DawnCaps)
    (depthStencilType : DepthStencilFlags) (sampleCount : Nat)
    (prot : Protectedness) : DawnCaps × TextureInfo :=
  (caps, caps.getDefaultDepthStencilTextureInfo depthStencilType sampleCount prot)

/-- State-passing `DawnCaps::getDefaultStorageTextureInfo`. -/
def DawnCaps.getDefaultStorageTextureInfoOp (caps : DawnCaps)
    (colorType : SkColorType) : DawnCaps × TextureInfo :=
  (caps, caps.getDefaultStorageTextureInfo colorType)

/-- State-passing `DawnCaps::supportsWritePixels`. -/
def DawnCaps.supportsWritePixelsOp (caps : DawnCaps) (textureInfo : TextureInfo) :
    DawnCaps × Bool :=
  (caps, caps.supportsWritePixels textureInfo)

/-- State-passing `DawnCaps::supportsReadPixels`. -/
def DawnCaps.supportsReadPixelsOp (caps : DawnCaps) (textureInfo : TextureInfo) :
    DawnCaps × Bool :=
  (caps, caps.supportsReadPixels textureInfo)

/-- State-passing `DawnCaps::supportedWritePixelsColorType`. -/
def DawnCaps.supportedWritePixelsColorTypeOp (caps : DawnCaps)
    (dstColorType : SkColorType) (dstTextureInfo : TextureInfo)
    (srcColorType : SkColorType) : DawnCaps × (SkColorType × Bool) :=
  (caps, caps.supportedWritePixelsColorType dstColorType dstTextureInfo srcColorType)

/-- State-passing `DawnCaps::supportedReadPixelsColorType`. -/
def DawnCaps.supportedReadPixelsColorTypeOp (caps : DawnCaps)
    (srcColorType : SkColorType) (srcTextureInfo : TextureInfo)
    (dstColorType : SkColorType) : DawnCaps × (SkColorType × Bool) :=
  (caps, caps.supportedReadPixelsColorType srcColorType srcTextureInfo dstColorType)

/-- State-passing `DawnCaps::buildKeyForTexture`. -/
def DawnCaps.buildKeyForTextureOp (caps : DawnCaps) (dimensions : SkISize)
    (info : TextureInfo) (resourceType : Nat) (shareable : Bool) :
    DawnCaps × GraphiteResourceKey :=
  (caps, caps.buildKeyForTexture dimensions info resourceType shareable)

/-- State-passing `DawnCaps::getRenderPassDescKeyForPipeline`. -/
def DawnCaps.getRenderPassDescKeyForPipelineOp (caps : DawnCaps)
    (renderPassDesc : RenderPassDesc) : DawnCaps × Nat :=
  (caps, caps.getRenderPassDescKeyForPipeline renderPassDesc)

/-- State-passing `DawnCaps::makeGraphicsPipelineKey`. -/
def DawnCaps.makeGraphicsPipelineKeyOp (caps : DawnCaps)
    (pipelineDesc : GraphicsPipelineDesc) (renderPassDesc : RenderPassDesc) :
    DawnCaps × UniqueKey :=
  (caps, caps.makeGraphicsPipelineKey pipelineDesc renderPassDesc)

/-- State-passing `DawnCaps::makeComputePipelineKey`. -/
def DawnCaps.makeComputePipelineKeyOp (caps : DawnCaps)
    (computeStepUniqueID : Nat) : DawnCaps × UniqueKey :=
  (caps, caps.makeComputePipelineKey computeStepUniqueID)

end skgpu.graphite

namespace skgpu.graphite

open wgpu

/-- Bitwise or of a value below `2 ^ k` with a multiple of `2 ^ k` is their
sum (the fields occupy disjoint bit ranges). -/
theorem lor_mul_pow_eq_add (a b k : Nat) (h : a < 2 ^ k) :
    a ||| b * 2 ^ k = a + b * 2 ^ k := by
  calc a ||| b * 2 ^ k = 2 ^ k * b ||| a := by rw [Nat.or_comm, Nat.mul_comm]
    _ = 2 ^ k * b + a := (Nat.mul_add_lt_is_or h b).symm
    _ = a + b * 2 ^ k := by rw [Nat.add_comm, Nat.mul_comm]

/-- Distinct `wgpu::TextureFormat` enumerators have distinct numeric
values. -/
theorem TextureFormat.val_injective :
    ∀ a b : TextureFormat, a.val = b.val → a = b := by decide

/-- Every `wgpu::TextureFormat` numeric value fits in 32 bits. -/
theorem TextureFormat.val_lt_two_pow_32 :
    ∀ a : TextureFormat, a.val < 2 ^ 32 := by decide

/-- `SamplesToKey` stays within the documented 3-bit budget. -/
theorem SamplesToKey_lt_8 : ∀ n : Nat, SamplesToKey n < 8 := by
  intro n
  unfold SamplesToKey
  split <;> omega

/-- `SamplesToKey` distinguishes the supported sample counts. -/
theorem SamplesToKey_injective {a b : Nat} (ha : SupportedSampleCount a)
    (hb : SupportedSampleCount b) (h : SamplesToKey a = SamplesToKey b) : a = b := by
  rcases ha with rfl | rfl | rfl | rfl | rfl <;>
    rcases hb with rfl | rfl | rfl | rfl | rfl <;> simp_all [SamplesToKey]

end skgpu.graphite

namespace skgpu.graphite

open wgpu

/-- C3: the `kFormats` table ends with the `Undefined` sentinel and has
`kFormatCnt` entries; for every `wgpu::TextureFormat` the lookup loop of
`GetFormatIndex` terminates inside the table (the trailing `SkUNREACHABLE` is
never reached), and the returned index — the format's own index when it is
listed, the sentinel's index otherwise — is strictly below `kFormatCnt`, so
every `fFormatTable` access through `GetFormatIndex` is in bounds. -/
theorem DawnCaps.GetFormatIndex_complete_and_in_bounds :
    kFormats.getLast? = some TextureFormat.Undefined ∧
    kFormats.length = DawnCaps.kFormatCnt ∧
    ∀ f : TextureFormat,
      (DawnCaps.getFormatIndexLoop f kFormats 0).isSome = true ∧
      DawnCaps.GetFormatIndex f < DawnCaps.kFormatCnt ∧
      DawnCaps.GetFormatIndex f =
        (if f ∈ kFormats then kFormats.indexOf f
         else kFormats.indexOf TextureFormat.Undefined) := by
  decide

/-- C5: `maxRenderTargetSampleCount` is 0 for formats whose table entry lacks
the renderable flag, 8 for renderable formats with the MSAA flag, 1 for
renderable formats without it; and `isRenderable(format, sampleCount)` holds
exactly when the sample count is at most that maximum. -/
theorem DawnCaps.maxRenderTargetSampleCount_spec (caps : DawnCaps)
    (format : TextureFormat) (sampleCount : Nat) :
    ((caps.getFormatInfo format).fFlags &&& DawnCaps.FormatInfo.kRenderable_Flag = 0 →
      caps.maxRenderTargetSampleCount format = 0) ∧
    ((caps.getFormatInfo format).fFlags &&& DawnCaps.FormatInfo.kRenderable_Flag ≠ 0 ∧
     (caps.getFormatInfo format).fFlags &&& DawnCaps.FormatInfo.kMSAA_Flag ≠ 0 →
      caps.maxRenderTargetSampleCount format = 8) ∧
    ((caps.getFormatInfo format).fFlags &&& DawnCaps.FormatInfo.kRenderable_Flag ≠ 0 ∧
     (caps.getFormatInfo format).fFlags &&& DawnCaps.FormatInfo.kMSAA_Flag = 0 →
      caps.maxRenderTargetSampleCount format = 1) ∧
    (caps.isRenderableFormat format sampleCount = true ↔
      sampleCount ≤ caps.maxRenderTargetSampleCount format) := by
  refine ⟨fun h => ?_, fun h => ?_, fun h => ?_, ?_⟩
  · simp [DawnCaps.maxRenderTargetSampleCount, h]
  · simp [DawnCaps.maxRenderTargetSampleCount, h.1, h.2]
  · simp [DawnCaps.maxRenderTargetSampleCount, h.1, h.2]
  · simp [DawnCaps.isRenderableFormat]

/-- Witness for C5 at the constructed capability table: `RGBA8Unorm` gets all
flags, so its maximum sample count is 8 and rendering at 8 samples is
allowed. -/
theorem DawnCaps.maxRenderTargetSampleCount_spec_witness :
    (DawnCaps.construct {} {}).isRenderableFormat TextureFormat.RGBA8Unorm 8 = true ↔
      8 ≤ (DawnCaps.construct {} {}).maxRenderTargetSampleCount TextureFormat.RGBA8Unorm :=
  (DawnCaps.maxRenderTargetSampleCount_spec (DawnCaps.construct {} {})
    TextureFormat.RGBA8Unorm 8).2.2.2

/-- C8: a texture whose sample count is not 1 is never reported
storage-capable, whatever its validity, usage and format flags. -/
theorem DawnCaps.isStorage_false_of_multisampled (caps : DawnCaps)
    (info : TextureInfo) (h : info.numSamples ≠ 1) :
    caps.isStorage info = false := by
  unfold DawnCaps.isStorage
  split
  · rfl
  · split
    · rfl
    · simp [h]

/-- Witness for C8: a valid 2-sample texture with storage-binding usage and a
storage-capable view format (`RGBA8Unorm` on a device with every feature) is
still rejected. -/
theorem DawnCaps.isStorage_false_of_multisampled_witness :
    (DawnCaps.construct
        { R8UnormStorage := true, Unorm16TextureFormats := true,
          TextureCompressionETC2 := true, TextureCompressionBC := true,
          TransientAttachments := true, DawnLoadResolveTexture := true,
          MSAARenderToSingleSampled := true, BufferMapExtendedUsages := true }
        {}).isStorage
      { fValid := true, fSampleCount := 2, fMipmapped := .kNo,
        fSpec := { fFormat := .RGBA8Unorm, fViewFormat := .RGBA8Unorm,
                   fUsage := TextureUsage.StorageBinding, fAspect := .All } } = false :=
  DawnCaps.isStorage_false_of_multisampled _ _ (by decide)

/-- C9: at sample count 0 the comparison `0 <= maxRenderTargetSampleCount`
always holds, so `isRenderable(format, 0)` is true for every format, even one
without the renderable flag; consequently any valid `TextureInfo` with
render-attachment usage and `numSamples() == 0` is reported renderable. -/
theorem DawnCaps.isRenderable_at_zero_samples (caps : DawnCaps)
    (format : TextureFormat) (info : TextureInfo)
    (h1 : info.isValid = true)
    (h2 : info.dawnTextureSpec.fUsage &&& TextureUsage.RenderAttachment ≠ 0)
    (h3 : info.numSamples = 0) :
    caps.isRenderableFormat format 0 = true ∧ caps.isRenderable info = true := by
  constructor
  · simp [DawnCaps.isRenderableFormat]
  · simp only [TextureInfo.isValid] at h1
    simp [DawnCaps.isRenderable, h1, h2, h3, TextureInfo.isValid,
      DawnCaps.isRenderableFormat]

/-- Witness for C9: `Stencil8` has only the MSAA flag (not renderable, so its
maximum sample count is 0), yet a valid zero-sample render-attachment texture
of that format is reported renderable. -/
theorem DawnCaps.isRenderable_at_zero_samples_witness :
    (DawnCaps.construct {} {}).isRenderableFormat TextureFormat.Stencil8 0 = true ∧
    (DawnCaps.construct {} {}).isRenderable
      { fValid := true, fSampleCount := 0, fMipmapped := .kNo,
        fSpec := { fFormat := .Stencil8, fViewFormat := .Stencil8,
                   fUsage := TextureUsage.RenderAttachment, fAspect := .All } } = true :=
  DawnCaps.isRenderable_at_zero_samples _ TextureFormat.Stencil8 _
    (by decide) (by decide) (by decide)

/-- C10: `supportedWritePixelsColorType` is the identity on the destination
color type and never reports an unsupported conversion: it returns
`(dstColorType, false)` for every destination texture info and source color
type. -/
theorem DawnCaps.supportedWritePixelsColorType_is_identity (caps : DawnCaps)
    (dstColorType : SkColorType) (dstTextureInfo : TextureInfo)
    (srcColorType : SkColorType) :
    caps.supportedWritePixelsColorType dstColorType dstTextureInfo srcColorType =
      (dstColorType, false) :=
  rfl

end skgpu.graphite

namespace skgpu.graphite

open wgpu

/-- C2: `getDefaultSampledTextureInfo` yields an invalid (default) texture
info exactly when the color-type-to-format lookup is `Undefined`; otherwise
the descriptor carries the looked-up format as format and view format, one
sample, the requested mip policy, and usage
`TextureBinding | CopyDst | CopySrc`, with `RenderAttachment` added exactly
for a renderable request. -/
theorem DawnCaps.getDefaultSampledTextureInfo_spec (caps : DawnCaps)
    (colorType : SkColorType) (mipmapped : Mipmapped) (prot : Protectedness)
    (renderable : Renderable) :
    ((caps.getDefaultSampledTextureInfo colorType mipmapped prot renderable).isValid
        = false ↔
      caps.getFormatFromColorType colorType = TextureFormat.Undefined) ∧
    (caps.getFormatFromColorType colorType ≠ TextureFormat.Undefined →
      (caps.getDefaultSampledTextureInfo colorType mipmapped prot
          renderable).dawnTextureSpec.fFormat = caps.getFormatFromColorType colorType ∧
      (caps.getDefaultSampledTextureInfo colorType mipmapped prot
          renderable).dawnTextureSpec.getViewFormat =
        caps.getFormatFromColorType colorType ∧
      (caps.getDefaultSampledTextureInfo colorType mipmapped prot
          renderable).numSamples = 1 ∧
      (caps.getDefaultSampledTextureInfo colorType mipmapped prot
          renderable).mipmapped = mipmapped ∧
      (caps.getDefaultSampledTextureInfo colorType mipmapped prot
          renderable).dawnTextureSpec.fUsage =
        (if renderable = Renderable.kYes then
          TextureUsage.TextureBinding ||| TextureUsage.CopyDst |||
          TextureUsage.CopySrc ||| TextureUsage.RenderAttachment
        else
          TextureUsage.TextureBinding ||| TextureUsage.CopyDst |||
          TextureUsage.CopySrc)) := by
  by_cases hfmt : caps.getFormatFromColorType colorType = TextureFormat.Undefined
  · refine ⟨?_, fun h => absurd hfmt h⟩
    simp [DawnCaps.getDefaultSampledTextureInfo, hfmt, TextureInfo.isValid]
  · refine ⟨?_, fun _ => ?_⟩
    · simp [DawnCaps.getDefaultSampledTextureInfo, hfmt, TextureInfo.isValid,
        DawnTextureInfo.toTextureInfo]
    · cases renderable <;>
        simp [DawnCaps.getDefaultSampledTextureInfo, hfmt, TextureInfo.isValid,
          DawnTextureInfo.toTextureInfo, TextureInfo.numSamples,
          TextureInfo.mipmapped, TextureInfo.dawnTextureSpec,
          DawnTextureSpec.getViewFormat]

/-- Witness for C2 on a constructed table: `kRGB_565` maps to no format, so
the request is invalid; `kRGBA_8888` maps to `RGBA8Unorm` and a renderable
request carries the render-attachment usage bit. -/
theorem DawnCaps.getDefaultSampledTextureInfo_spec_witness :
    (((DawnCaps.construct {} {}).getDefaultSampledTextureInfo SkColorType.kRGB_565
        Mipmapped.kNo Protectedness.kNo Renderable.kNo).isValid = false ↔
      (DawnCaps.construct {} {}).getFormatFromColorType SkColorType.kRGB_565 =
        TextureFormat.Undefined) ∧
    ((DawnCaps.construct {} {}).getDefaultSampledTextureInfo SkColorType.kRGBA_8888
        Mipmapped.kYes Protectedness.kNo Renderable.kYes).dawnTextureSpec.fUsage =
      (TextureUsage.TextureBinding ||| TextureUsage.CopyDst |||
       TextureUsage.CopySrc ||| TextureUsage.RenderAttachment) :=
  ⟨(DawnCaps.getDefaultSampledTextureInfo_spec (DawnCaps.construct {} {})
      SkColorType.kRGB_565 Mipmapped.kNo Protectedness.kNo Renderable.kNo).1,
   by
    have h := (DawnCaps.getDefaultSampledTextureInfo_spec (DawnCaps.construct {} {})
      SkColorType.kRGBA_8888 Mipmapped.kYes Protectedness.kNo Renderable.kYes).2
      (by decide)
    simpa using h.2.2.2.2⟩

/-- C6: `getDefaultCompressedTextureInfo` is invalid for every compression
type except ETC2-RGB8 and BC1-RGBA8; for those two it yields the matching
format as format and view format, one sample, the requested mipmapping, and
usage `TextureBinding | CopyDst | CopySrc`. -/
theorem DawnCaps.getDefaultCompressedTextureInfo_spec (caps : DawnCaps)
    (compression : SkTextureCompressionType) (mipmapped : Mipmapped)
    (prot : Protectedness) :
    (compression ≠ SkTextureCompressionType.kETC2_RGB8_UNORM ∧
     compression ≠ SkTextureCompressionType.kBC1_RGBA8_UNORM →
      (caps.getDefaultCompressedTextureInfo compression mipmapped prot).isValid
        = false) ∧
    (compression = SkTextureCompressionType.kETC2_RGB8_UNORM ∨
     compression = SkTextureCompressionType.kBC1_RGBA8_UNORM →
      (caps.getDefaultCompressedTextureInfo compression mipmapped prot).isValid
        = true ∧
      (caps.getDefaultCompressedTextureInfo compression mipmapped
          prot).dawnTextureSpec.fFormat = format_from_compression compression ∧
      (caps.getDefaultCompressedTextureInfo compression mipmapped
          prot).dawnTextureSpec.getViewFormat = format_from_compression compression ∧
      format_from_compression compression ≠ TextureFormat.Undefined ∧
      (caps.getDefaultCompressedTextureInfo compression mipmapped
          prot).numSamples = 1 ∧
      (caps.getDefaultCompressedTextureInfo compression mipmapped
          prot).mipmapped = mipmapped ∧
      (caps.getDefaultCompressedTextureInfo compression mipmapped
          prot).dawnTextureSpec.fUsage =
        (TextureUsage.TextureBinding ||| TextureUsage.CopyDst |||
         TextureUsage.CopySrc)) := by
  cases compression <;>
    simp [DawnCaps.getDefaultCompressedTextureInfo, format_from_compression,
      TextureInfo.isValid, DawnTextureInfo.toTextureInfo, TextureInfo.numSamples,
      TextureInfo.mipmapped, TextureInfo.dawnTextureSpec,
      DawnTextureSpec.getViewFormat]

/-- Witness for C6: `kBC1_RGB8_UNORM` (not one of the two supported types)
yields an invalid info, and ETC2 yields a valid one. -/
theorem DawnCaps.getDefaultCompressedTextureInfo_spec_witness :
    ((DawnCaps.construct {} {}).getDefaultCompressedTextureInfo
        SkTextureCompressionType.kBC1_RGB8_UNORM Mipmapped.kNo
        Protectedness.kNo).isValid = false ∧
    ((DawnCaps.construct {} {}).getDefaultCompressedTextureInfo
        SkTextureCompressionType.kETC2_RGB8_UNORM Mipmapped.kYes
        Protectedness.kNo).isValid = true :=
  ⟨(DawnCaps.getDefaultCompressedTextureInfo_spec (DawnCaps.construct {} {})
      SkTextureCompressionType.kBC1_RGB8_UNORM Mipmapped.kNo Protectedness.kNo).1
      (by exact ⟨by decide, by decide⟩),
   ((DawnCaps.getDefaultCompressedTextureInfo_spec (DawnCaps.construct {} {})
      SkTextureCompressionType.kETC2_RGB8_UNORM Mipmapped.kYes Protectedness.kNo).2
      (Or.inl rfl)).1⟩

/-- C7: after construction, every capability query and key-building
operation leaves the capability state (format table, color-type-to-format
table, device limits and feature-derived fields) unchanged: each state-passing
operation returns exactly the constructed state. -/
theorem DawnCaps.queries_leave_state_unchanged (dev : DeviceFeatures)
    (limits : DawnDeviceLimits) :
    (∀ format, ((DawnCaps.construct dev limits).isTexturableOp format).1 =
      DawnCaps.construct dev limits) ∧
    (∀ info, ((DawnCaps.construct dev limits).onIsTexturableOp info).1 =
      DawnCaps.construct dev limits) ∧
    (∀ info, ((DawnCaps.construct dev limits).isRenderableOp info).1 =
      DawnCaps.construct dev limits) ∧
    (∀ format sampleCount,
      ((DawnCaps.construct dev limits).isRenderableFormatOp format sampleCount).1 =
      DawnCaps.construct dev limits) ∧
    (∀ info, ((DawnCaps.construct dev limits).isStorageOp info).1 =
      DawnCaps.construct dev limits) ∧
    (∀ format,
      ((DawnCaps.construct dev limits).maxRenderTargetSampleCountOp format).1 =
      DawnCaps.construct dev limits) ∧
    (∀ colorType textureInfo,
      ((DawnCaps.construct dev limits).getColorTypeInfoOp colorType textureInfo).1 =
      DawnCaps.construct dev limits) ∧
    (∀ colorType mipmapped prot renderable,
      ((DawnCaps.construct dev limits).getDefaultSampledTextureInfoOp colorType
        mipmapped prot renderable).1 = DawnCaps.construct dev limits) ∧
    (∀ textureInfo mipmapped,
      ((DawnCaps.construct dev limits).getTextureInfoForSampledCopyOp textureInfo
        mipmapped).1 = DawnCaps.construct dev limits) ∧
    (∀ compression mipmapped prot,
      ((DawnCaps.construct dev limits).getDefaultCompressedTextureInfoOp compression
        mipmapped prot).1 = DawnCaps.construct dev limits) ∧
    (∀ singleSampledInfo discardable,
      ((DawnCaps.construct dev limits).getDefaultMSAATextureInfoOp singleSampledInfo
        discardable).1 = DawnCaps.construct dev limits) ∧
    (∀ depthStencilType sampleCount prot,
      ((DawnCaps.construct dev limits).getDefaultDepthStencilTextureInfoOp
        depthStencilType sampleCount prot).1 = DawnCaps.construct dev limits) ∧
    (∀ colorType,
      ((DawnCaps.construct dev limits).getDefaultStorageTextureInfoOp colorType).1 =
      DawnCaps.construct dev limits) ∧
    (∀ textureInfo,
      ((DawnCaps.construct dev limits).supportsWritePixelsOp textureInfo).1 =
      DawnCaps.construct dev limits) ∧
    (∀ textureInfo,
      ((DawnCaps.construct dev limits).supportsReadPixelsOp textureInfo).1 =
      DawnCaps.construct dev limits) ∧
    (∀ dstColorType dstTextureInfo srcColorType,
      ((DawnCaps.construct dev limits).supportedWritePixelsColorTypeOp dstColorType
        dstTextureInfo srcColorType).1 = DawnCaps.construct dev limits) ∧
    (∀ srcColorType srcTextureInfo dstColorType,
      ((DawnCaps.construct dev limits).supportedReadPixelsColorTypeOp srcColorType
        srcTextureInfo dstColorType).1 = DawnCaps.construct dev limits) ∧
    (∀ dimensions info resourceType shareable,
      ((DawnCaps.construct dev limits).buildKeyForTextureOp dimensions info
        resourceType shareable).1 = DawnCaps.construct dev limits) ∧
    (∀ renderPassDesc,
      ((DawnCaps.construct dev limits).getRenderPassDescKeyForPipelineOp
        renderPassDesc).1 = DawnCaps.construct dev limits) ∧
    (∀ pipelineDesc renderPassDesc,
      ((DawnCaps.construct dev limits).makeGraphicsPipelineKeyOp pipelineDesc
        renderPassDesc).1 = DawnCaps.construct dev limits) ∧
    (∀ computeStepUniqueID,
      ((DawnCaps.construct dev limits).makeComputePipelineKeyOp
        computeStepUniqueID).1 = DawnCaps.construct dev limits) :=
  ⟨fun _ => rfl, fun _ => rfl, fun _ => rfl, fun _ _ => rfl, fun _ => rfl,
   fun _ => rfl, fun _ _ => rfl, fun _ _ _ _ => rfl, fun _ _ => rfl,
   fun _ _ _ => rfl, fun _ _ => rfl, fun _ _ _ => rfl, fun _ => rfl,
   fun _ => rfl, fun _ => rfl, fun _ _ _ => rfl, fun _ _ _ => rfl,
   fun _ _ _ _ => rfl, fun _ => rfl, fun _ _ => rfl, fun _ => rfl⟩

end skgpu.graphite

namespace skgpu.graphite

open wgpu

/-- A word packing a 3-bit field, a 1-bit field and a 28-bit field with
bitwise or equals the sum of the shifted fields. -/
theorem pack_word_eq (sk m u : Nat) (hsk : sk < 8) (hm : m ≤ 1) (hu : u < 2 ^ 28) :
    (sk ||| m <<< 3 ||| (u % 2 ^ 32) <<< 4) % 2 ^ 32 = sk + m * 8 + u * 16 := by
  have hu32 : u % 2 ^ 32 = u := Nat.mod_eq_of_lt (by omega)
  rw [hu32, Nat.shiftLeft_eq, Nat.shiftLeft_eq,
    lor_mul_pow_eq_add sk m 3 hsk,
    lor_mul_pow_eq_add (sk + m * 2 ^ 3) u 4 (by omega),
    Nat.mod_eq_of_lt (by omega)]
  norm_num

/-- The first three data words of a texture resource key: width, height and
the numeric view format, each truncated to 32 bits. -/
theorem DawnCaps.buildKeyForTexture_data (caps : DawnCaps) (dimensions : SkISize)
    (info : TextureInfo) (resourceType : Nat) (shareable : Bool) :
    (caps.buildKeyForTexture dimensions info resourceType shareable).fData.getD 0 0 =
      dimensions.fWidth % 2 ^ 32 ∧
    (caps.buildKeyForTexture dimensions info resourceType shareable).fData.getD 1 0 =
      dimensions.fHeight % 2 ^ 32 ∧
    (caps.buildKeyForTexture dimensions info resourceType shareable).fData.getD 2 0 =
      info.dawnTextureSpec.getViewFormat.val % 2 ^ 32 := by
  refine ⟨?_, ?_, ?_⟩ <;> simp [DawnCaps.buildKeyForTexture]

/-- The fourth data word of a texture resource key as a sum of its disjoint
bit fields (samples key, mip bit, usage). -/
theorem DawnCaps.buildKeyForTexture_word3 (caps : DawnCaps) (dimensions : SkISize)
    (info : TextureInfo) (resourceType : Nat) (shareable : Bool)
    (hu : info.dawnTextureSpec.fUsage < 2 ^ 28) :
    (caps.buildKeyForTexture dimensions info resourceType shareable).fData.getD 3 0 =
      SamplesToKey info.numSamples +
      (if info.mipmapped = Mipmapped.kYes then 1 else 0) * 8 +
      info.dawnTextureSpec.fUsage * 16 := by
  have hsk := SamplesToKey_lt_8 info.numSamples
  by_cases hmip : info.mipmapped = Mipmapped.kYes <;>
    simp only [DawnCaps.buildKeyForTexture, hmip, decide_True, decide_False,
      cond_true, cond_false, if_true, if_false] <;>
    simp only [List.getD, List.get?, Option.getD] <;>
    rw [pack_word_eq _ _ _ hsk (by omega) hu]

/-- C1: under the documented bit budget (3-bit samples key, 1-bit mip flag,
28-bit usage), the fourth 32-bit word of the texture resource key packs the
samples key into bits 0-2, the mip flag into bit 3 and the usage into bits
4-31, reversibly; and together with the width, height and format words this
makes the key injective in (dimensions, view format, sample count, mip flag,
usage). -/
theorem DawnCaps.buildKeyForTexture_packs_reversibly (caps : DawnCaps)
    (dimensions dimensions' : SkISize) (info info' : TextureInfo)
    (resourceType : Nat) (shareable : Bool)
    (hw : dimensions.fWidth < 2 ^ 32) (hh : dimensions.fHeight < 2 ^ 32)
    (hs : SupportedSampleCount info.numSamples)
    (hu : info.dawnTextureSpec.fUsage < 2 ^ 28)
    (hw' : dimensions'.fWidth < 2 ^ 32) (hh' : dimensions'.fHeight < 2 ^ 32)
    (hs' : SupportedSampleCount info'.numSamples)
    (hu' : info'.dawnTextureSpec.fUsage < 2 ^ 28) :
    (caps.buildKeyForTexture dimensions info resourceType shareable).fData.getD 3 0
        % 2 ^ 3 = SamplesToKey info.numSamples ∧
    (caps.buildKeyForTexture dimensions info resourceType shareable).fData.getD 3 0
        / 2 ^ 3 % 2 = (if info.mipmapped = Mipmapped.kYes then 1 else 0) ∧
    (caps.buildKeyForTexture dimensions info resourceType shareable).fData.getD 3 0
        / 2 ^ 4 = info.dawnTextureSpec.fUsage ∧
    (caps.buildKeyForTexture dimensions' info' resourceType shareable =
        caps.buildKeyForTexture dimensions info resourceType shareable →
      dimensions'.fWidth = dimensions.fWidth ∧
      dimensions'.fHeight = dimensions.fHeight ∧
      info'.dawnTextureSpec.getViewFormat = info.dawnTextureSpec.getViewFormat ∧
      info'.numSamples = info.numSamples ∧
      info'.mipmapped = info.mipmapped ∧
      info'.dawnTextureSpec.fUsage = info.dawnTextureSpec.fUsage) := by
  have hword := DawnCaps.buildKeyForTexture_word3 caps dimensions info
    resourceType shareable hu
  have hword' := DawnCaps.buildKeyForTexture_word3 caps dimensions' info'
    resourceType shareable hu'
  have hsk := SamplesToKey_lt_8 info.numSamples
  have hsk' := SamplesToKey_lt_8 info'.numSamples
  have hm : (if info.mipmapped = Mipmapped.kYes then (1:Nat) else 0) ≤ 1 := by
    split <;> omega
  have hm' : (if info'.mipmapped = Mipmapped.kYes then (1:Nat) else 0) ≤ 1 := by
    split <;> omega
  refine ⟨by omega, by omega, by omega, fun hkey => ?_⟩
  have hdata := DawnCaps.buildKeyForTexture_data caps dimensions info
    resourceType shareable
  have hdata' := DawnCaps.buildKeyForTexture_data caps dimensions' info'
    resourceType shareable
  have e0 : (caps.buildKeyForTexture dimensions' info' resourceType
      shareable).fData.getD 0 0 = (caps.buildKeyForTexture dimensions info
      resourceType shareable).fData.getD 0 0 := by rw [hkey]
  have e1 : (caps.buildKeyForTexture dimensions' info' resourceType
      shareable).fData.getD 1 0 = (caps.buildKeyForTexture dimensions info
      resourceType shareable).fData.getD 1 0 := by rw [hkey]
  have e2 : (caps.buildKeyForTexture dimensions' info' resourceType
      shareable).fData.getD 2 0 = (caps.buildKeyForTexture dimensions info
      resourceType shareable).fData.getD 2 0 := by rw [hkey]
  have e3 : (caps.buildKeyForTexture dimensions' info' resourceType
      shareable).fData.getD 3 0 = (caps.buildKeyForTexture dimensions info
      resourceType shareable).fData.getD 3 0 := by rw [hkey]
  rw [hdata'.1, hdata.1] at e0
  rw [hdata'.2.1, hdata.2.1] at e1
  rw [hdata'.2.2, hdata.2.2] at e2
  rw [hword', hword] at e3
  have hv := TextureFormat.val_lt_two_pow_32 info.dawnTextureSpec.getViewFormat
  have hv' := TextureFormat.val_lt_two_pow_32 info'.dawnTextureSpec.getViewFormat
  refine ⟨by omega, by omega, ?_, ?_, ?_, by omega⟩
  · exact TextureFormat.val_injective _ _ (by omega)
  · exact SamplesToKey_injective hs' hs (by omega)
  · have hmeq : (if info'.mipmapped = Mipmapped.kYes then (1:Nat) else 0) =
        (if info.mipmapped = Mipmapped.kYes then (1:Nat) else 0) := by omega
    cases h1 : info.mipmapped <;> cases h2 : info'.mipmapped <;>
      simp_all

/-- Witness for C1 at concrete inputs: a 16 x 32 mipped 4-sample RGBA8 render
texture against an 8 x 32 texture differing only in width. -/
theorem DawnCaps.buildKeyForTexture_packs_reversibly_witness :
    (16 : Nat) < 2 ^ 32 ∧ (32 : Nat) < 2 ^ 32 ∧
    SupportedSampleCount 4 ∧ wgpu.TextureUsage.RenderAttachment < 2 ^ 28 ∧
    ((DawnCaps.construct {} {}).buildKeyForTexture { fWidth := 16, fHeight := 32 }
        { fValid := true, fSampleCount := 4, fMipmapped := .kYes,
          fSpec := { fFormat := .RGBA8Unorm, fViewFormat := .RGBA8Unorm,
                     fUsage := wgpu.TextureUsage.RenderAttachment,
                     fAspect := .All } } 1 true).fData.getD 3 0 / 2 ^ 4 =
      wgpu.TextureUsage.RenderAttachment := by
  refine ⟨by decide, by decide, Or.inr (Or.inr (Or.inl rfl)), by decide, ?_⟩
  exact (DawnCaps.buildKeyForTexture_packs_reversibly (DawnCaps.construct {} {})
    { fWidth := 16, fHeight := 32 } { fWidth := 8, fHeight := 32 }
    { fValid := true, fSampleCount := 4, fMipmapped := .kYes,
      fSpec := { fFormat := .RGBA8Unorm, fViewFormat := .RGBA8Unorm,
                 fUsage := wgpu.TextureUsage.RenderAttachment, fAspect := .All } }
    { fValid := true, fSampleCount := 4, fMipmapped := .kYes,
      fSpec := { fFormat := .RGBA8Unorm, fViewFormat := .RGBA8Unorm,
                 fUsage := wgpu.TextureUsage.RenderAttachment, fAspect := .All } }
    1 true (by decide) (by decide) (Or.inr (Or.inr (Or.inl rfl))) (by decide)
    (by decide) (by decide) (Or.inr (Or.inr (Or.inl rfl))) (by decide)).2.2.1

end skgpu.graphite

namespace skgpu.graphite

open wgpu

/-- The 64-bit render pass key as a sum of its disjoint bit fields: a 16-bit
color format, 15-bit color sample count and 1-bit load-resolve flag in the
high word, and a 16-bit depth-stencil format and sample count in the low
word. -/
theorem pack_rp_key_eq (v sc b dv dsc : Nat) (hv : v ≤ 0xffff) (hsc : sc < 0x7fff)
    (hb : b ≤ 1) (hdv : dv ≤ 0xffff) (hdsc : dsc < 2 ^ 16) :
    ((((v % 2 ^ 32) <<< 16 ||| sc <<< 1 ||| b) % 2 ^ 32) <<< 32 |||
     ((dv % 2 ^ 32) <<< 16 ||| dsc) % 2 ^ 32) % 2 ^ 64 =
      dsc + dv * 2 ^ 16 + (b + (sc + v * 2 ^ 15) * 2) * 2 ^ 32 := by
  have hv32 : v % 2 ^ 32 = v := Nat.mod_eq_of_lt (by omega)
  have hdv32 : dv % 2 ^ 32 = dv := Nat.mod_eq_of_lt (by omega)
  have hc1 : (v % 2 ^ 32) <<< 16 ||| sc <<< 1 = sc * 2 ^ 1 + v * 2 ^ 16 := by
    rw [hv32, Nat.shiftLeft_eq, Nat.shiftLeft_eq, Nat.or_comm,
      lor_mul_pow_eq_add (sc * 2 ^ 1) v 16 (by omega)]
  have hc2 : sc * 2 ^ 1 + v * 2 ^ 16 = (sc + v * 2 ^ 15) * 2 ^ 1 := by ring
  have hc3 : (v % 2 ^ 32) <<< 16 ||| sc <<< 1 ||| b =
      b + (sc + v * 2 ^ 15) * 2 ^ 1 := by
    rw [hc1, hc2, Nat.or_comm, lor_mul_pow_eq_add b (sc + v * 2 ^ 15) 1 (by omega)]
  have hc4 : ((v % 2 ^ 32) <<< 16 ||| sc <<< 1 ||| b) % 2 ^ 32 =
      b + (sc + v * 2 ^ 15) * 2 ^ 1 := by
    rw [hc3]
    exact Nat.mod_eq_of_lt (by omega)
  have hd1 : ((dv % 2 ^ 32) <<< 16 ||| dsc) % 2 ^ 32 = dsc + dv * 2 ^ 16 := by
    rw [hdv32, Nat.shiftLeft_eq, Nat.or_comm, lor_mul_pow_eq_add dsc dv 16 hdsc]
    exact Nat.mod_eq_of_lt (by omega)
  rw [hc4, hd1, Nat.shiftLeft_eq, Nat.or_comm,
    lor_mul_pow_eq_add (dsc + dv * 2 ^ 16) (b + (sc + v * 2 ^ 15) * 2 ^ 1) 32
      (by omega),
    Nat.mod_eq_of_lt (by omega)]
  ring

/-- C4: under the preconditions (view formats at most `0xffff`, color sample
count below `0x7fff`, depth-stencil sample count below `2 ^ 16`), the render
pass pipeline key places the color view format in bits 48-63, the color
sample count in bits 33-47, the load-resolve-attachment bit in bit 32, the
depth-stencil view format in bits 16-31 and the depth-stencil sample count in
bits 0-15, so the key is injective in that 5-tuple of fields. -/
theorem DawnCaps.getRenderPassDescKeyForPipeline_fields (caps : DawnCaps)
    (renderPassDesc renderPassDesc' : RenderPassDesc)
    (hcv : renderPassDesc.fColorAttachment.fTextureInfo.getDawnTextureInfoOrDefault.getViewFormat.val
      ≤ 0xffff)
    (hcs : renderPassDesc.fColorAttachment.fTextureInfo.getDawnTextureInfoOrDefault.fSampleCount
      < 0x7fff)
    (hdv : renderPassDesc.fDepthStencilAttachment.fTextureInfo.getDawnTextureInfoOrDefault.getViewFormat.val
      ≤ 0xffff)
    (hds : renderPassDesc.fDepthStencilAttachment.fTextureInfo.getDawnTextureInfoOrDefault.fSampleCount
      < 2 ^ 16)
    (hcv' : renderPassDesc'.fColorAttachment.fTextureInfo.getDawnTextureInfoOrDefault.getViewFormat.val
      ≤ 0xffff)
    (hcs' : renderPassDesc'.fColorAttachment.fTextureInfo.getDawnTextureInfoOrDefault.fSampleCount
      < 0x7fff)
    (hdv' : renderPassDesc'.fDepthStencilAttachment.fTextureInfo.getDawnTextureInfoOrDefault.getViewFormat.val
      ≤ 0xffff)
    (hds' : renderPassDesc'.fDepthStencilAttachment.fTextureInfo.getDawnTextureInfoOrDefault.fSampleCount
      < 2 ^ 16) :
    caps.getRenderPassDescKeyForPipeline renderPassDesc / 2 ^ 48 =
      renderPassDesc.fColorAttachment.fTextureInfo.getDawnTextureInfoOrDefault.getViewFormat.val ∧
    caps.getRenderPassDescKeyForPipeline renderPassDesc / 2 ^ 33 % 2 ^ 15 =
      renderPassDesc.fColorAttachment.fTextureInfo.getDawnTextureInfoOrDefault.fSampleCount ∧
    caps.getRenderPassDescKeyForPipeline renderPassDesc / 2 ^ 32 % 2 =
      (if caps.resolveTextureLoadOp.isSome = true ∧
          renderPassDesc.fColorResolveAttachment.fTextureInfo.isValid = true ∧
          renderPassDesc.fColorResolveAttachment.fLoadOp = GLoadOp.kLoad
       then 1 else 0) ∧
    caps.getRenderPassDescKeyForPipeline renderPassDesc / 2 ^ 16 % 2 ^ 16 =
      renderPassDesc.fDepthStencilAttachment.fTextureInfo.getDawnTextureInfoOrDefault.getViewFormat.val ∧
    caps.getRenderPassDescKeyForPipeline renderPassDesc % 2 ^ 16 =
      renderPassDesc.fDepthStencilAttachment.fTextureInfo.getDawnTextureInfoOrDefault.fSampleCount ∧
    (caps.getRenderPassDescKeyForPipeline renderPassDesc' =
        caps.getRenderPassDescKeyForPipeline renderPassDesc →
      renderPassDesc'.fColorAttachment.fTextureInfo.getDawnTextureInfoOrDefault.getViewFormat =
        renderPassDesc.fColorAttachment.fTextureInfo.getDawnTextureInfoOrDefault.getViewFormat ∧
      renderPassDesc'.fColorAttachment.fTextureInfo.getDawnTextureInfoOrDefault.fSampleCount =
        renderPassDesc.fColorAttachment.fTextureInfo.getDawnTextureInfoOrDefault.fSampleCount ∧
      (if caps.resolveTextureLoadOp.isSome = true ∧
          renderPassDesc'.fColorResolveAttachment.fTextureInfo.isValid = true ∧
          renderPassDesc'.fColorResolveAttachment.fLoadOp = GLoadOp.kLoad
       then (1:Nat) else 0) =
        (if caps.resolveTextureLoadOp.isSome = true ∧
            renderPassDesc.fColorResolveAttachment.fTextureInfo.isValid = true ∧
            renderPassDesc.fColorResolveAttachment.fLoadOp = GLoadOp.kLoad
         then (1:Nat) else 0) ∧
      renderPassDesc'.fDepthStencilAttachment.fTextureInfo.getDawnTextureInfoOrDefault.getViewFormat =
        renderPassDesc.fDepthStencilAttachment.fTextureInfo.getDawnTextureInfoOrDefault.getViewFormat ∧
      renderPassDesc'.fDepthStencilAttachment.fTextureInfo.getDawnTextureInfoOrDefault.fSampleCount =
        renderPassDesc.fDepthStencilAttachment.fTextureInfo.getDawnTextureInfoOrDefault.fSampleCount) := by
  have hb : (if caps.resolveTextureLoadOp.isSome = true ∧
      renderPassDesc.fColorResolveAttachment.fTextureInfo.isValid = true ∧
      renderPassDesc.fColorResolveAttachment.fLoadOp = GLoadOp.kLoad
    then (1:Nat) else 0) ≤ 1 := by split <;> omega
  have hb' : (if caps.resolveTextureLoadOp.isSome = true ∧
      renderPassDesc'.fColorResolveAttachment.fTextureInfo.isValid = true ∧
      renderPassDesc'.fColorResolveAttachment.fLoadOp = GLoadOp.kLoad
    then (1:Nat) else 0) ≤ 1 := by split <;> omega
  have hkey : caps.getRenderPassDescKeyForPipeline renderPassDesc =
      renderPassDesc.fDepthStencilAttachment.fTextureInfo.getDawnTextureInfoOrDefault.fSampleCount +
      renderPassDesc.fDepthStencilAttachment.fTextureInfo.getDawnTextureInfoOrDefault.getViewFormat.val * 2 ^ 16 +
      ((if caps.resolveTextureLoadOp.isSome = true ∧
           renderPassDesc.fColorResolveAttachment.fTextureInfo.isValid = true ∧
           renderPassDesc.fColorResolveAttachment.fLoadOp = GLoadOp.kLoad
        then (1:Nat) else 0) +
       (renderPassDesc.fColorAttachment.fTextureInfo.getDawnTextureInfoOrDefault.fSampleCount +
        renderPassDesc.fColorAttachment.fTextureInfo.getDawnTextureInfoOrDefault.getViewFormat.val * 2 ^ 15) * 2)
        * 2 ^ 32 := by
    simp only [DawnCaps.getRenderPassDescKeyForPipeline]
    rw [pack_rp_key_eq _ _ _ _ _ hcv hcs hb hdv hds]
  have hkey' : caps.getRenderPassDescKeyForPipeline renderPassDesc' =
      renderPassDesc'.fDepthStencilAttachment.fTextureInfo.getDawnTextureInfoOrDefault.fSampleCount +
      renderPassDesc'.fDepthStencilAttachment.fTextureInfo.getDawnTextureInfoOrDefault.getViewFormat.val * 2 ^ 16 +
      ((if caps.resolveTextureLoadOp.isSome = true ∧
           renderPassDesc'.fColorResolveAttachment.fTextureInfo.isValid = true ∧
           renderPassDesc'.fColorResolveAttachment.fLoadOp = GLoadOp.kLoad
        then (1:Nat) else 0) +
       (renderPassDesc'.fColorAttachment.fTextureInfo.getDawnTextureInfoOrDefault.fSampleCount +
        renderPassDesc'.fColorAttachment.fTextureInfo.getDawnTextureInfoOrDefault.getViewFormat.val * 2 ^ 15) * 2)
        * 2 ^ 32 := by
    simp only [DawnCaps.getRenderPassDescKeyForPipeline]
    rw [pack_rp_key_eq _ _ _ _ _ hcv' hcs' hb' hdv' hds']
  refine ⟨by omega, by omega, by omega, by omega, by omega, fun heq => ?_⟩
  refine ⟨TextureFormat.val_injective _ _ (by omega), by omega, by omega,
    TextureFormat.val_injective _ _ (by omega), by omega⟩

/-- Witness for C4 at a concrete render pass: a 4-sample RGBA8 color
attachment with a load-resolve attachment, and a 4-sample
`Depth24PlusStencil8` depth-stencil attachment, on a device with the
`DawnLoadResolveTexture` feature. -/
theorem DawnCaps.getRenderPassDescKeyForPipeline_fields_witness :
    (DawnCaps.construct { DawnLoadResolveTexture := true } {}).getRenderPassDescKeyForPipeline
      { fColorAttachment :=
          { fTextureInfo :=
              { fValid := true, fSampleCount := 4, fMipmapped := .kNo,
                fSpec := { fFormat := .RGBA8Unorm, fViewFormat := .RGBA8Unorm,
                           fUsage := TextureUsage.RenderAttachment,
                           fAspect := .All } },
            fLoadOp := .kClear },
        fColorResolveAttachment :=
          { fTextureInfo :=
              { fValid := true, fSampleCount := 1, fMipmapped := .kNo,
                fSpec := { fFormat := .RGBA8Unorm, fViewFormat := .RGBA8Unorm,
                           fUsage := TextureUsage.RenderAttachment,
                           fAspect := .All } },
            fLoadOp := .kLoad },
        fDepthStencilAttachment :=
          { fTextureInfo :=
              { fValid := true, fSampleCount := 4, fMipmapped := .kNo,
                fSpec := { fFormat := .Depth24PlusStencil8,
                           fViewFormat := .Depth24PlusStencil8,
                           fUsage := TextureUsage.RenderAttachment,
                           fAspect := .All } },
            fLoadOp := .kClear },
        fWriteSwizzleKey := 0 } / 2 ^ 48 = (TextureFormat.RGBA8Unorm).val :=
  (DawnCaps.getRenderPassDescKeyForPipeline_fields
    (DawnCaps.construct { DawnLoadResolveTexture := true } {})
    { fColorAttachment :=
        { fTextureInfo :=
            { fValid := true, fSampleCount := 4, fMipmapped := .kNo,
              fSpec := { fFormat := .RGBA8Unorm, fViewFormat := .RGBA8Unorm,
                         fUsage := TextureUsage.RenderAttachment,
                         fAspect := .All } },
          fLoadOp := .kClear },
      fColorResolveAttachment :=
        { fTextureInfo :=
            { fValid := true, fSampleCount := 1, fMipmapped := .kNo,
              fSpec := { fFormat := .RGBA8Unorm, fViewFormat := .RGBA8Unorm,
                         fUsage := TextureUsage.RenderAttachment,
                         fAspect := .All } },
          fLoadOp := .kLoad },
      fDepthStencilAttachment :=
        { fTextureInfo :=
            { fValid := true, fSampleCount := 4, fMipmapped := .kNo,
              fSpec := { fFormat := .Depth24PlusStencil8,
                         fViewFormat := .Depth24PlusStencil8,
                         fUsage := TextureUsage.RenderAttachment,
                         fAspect := .All } },
          fLoadOp := .kClear },
      fWriteSwizzleKey := 0 }
    { fColorAttachment := {}, fColorResolveAttachment := {},
      fDepthStencilAttachment := {}, fWriteSwizzleKey := 0 }
    (by decide) (by decide) (by decide) (by decide)
    (by decide) (by decide) (by decide) (by decide)).1

end skgpu.graphite
